import Mathlib

/-!
Shallow embedding of `check_shelly.py` (Napsty/check_shelly, v0.3), a
Nagios-style monitoring plugin for Shelly relay / power-meter devices.

The script is straight-line Python: argument handling (lines 64-94), URL and
authentication-scheme selection (lines 96-106), a `responsehandler` that
validates HTTP statuses (lines 114-120), a `systemexit` printer (lines
122-124) and three check bodies (`info`, `system`, `meter`).  We embed the
argument-handling phase, the request traces each check issues, and the
response-processing flows of the `system` and `meter` checks, keeping the
exact strings, exit codes and the Python binding/truthiness semantics
(an unassigned local read raises `NameError`; a `requests` response object
is truthy iff its status code is below 400; a non-empty string is truthy).

JSON numbers are modelled as rationals; machine floats are not modelled.
The `%i` conversion truncates toward zero like Python `int()`, and `%.kf`
is modelled as round-half-even on the rational value.
-/

namespace CheckShelly

/-- Python `%i` of a JSON number: truncation toward zero (`int()`).  The
rational is in lowest terms with a positive denominator, so the sign lives
in the numerator; all arithmetic is on the numerator and denominator
directly. -/
def pyInt (q : ℚ) : ℤ :=
  if 0 ≤ q.num then q.num.fdiv (q.den : ℤ) else -((-q.num).fdiv (q.den : ℤ))

/-- The value of q scaled by 10 to the k and rounded to the nearest
integer, ties to even (the rounding Python applies when formatting with a
fixed number of decimals). -/
def roundHalfEvenScaled (q : ℚ) (k : ℕ) : ℤ :=
  let scaled : ℤ := q.num * ((10 ^ k : ℕ) : ℤ)
  let d : ℤ := (q.den : ℤ)
  let f : ℤ := scaled.fdiv d
  let r : ℤ := scaled - f * d
  if 2 * r < d then f else if d < 2 * r then f + 1 else if f % 2 == 0 then f else f + 1

/-- Python `"%.kf" % q`: fixed-point rendering with `k` decimals. -/
def fmtFixed (q : ℚ) (k : ℕ) : String :=
  let n := roundHalfEvenScaled q k
  let sgn := if n < 0 then "-" else ""
  let a := n.natAbs
  let ip := a / 10 ^ k
  let fp := a % 10 ^ k
  let fs := toString fp
  sgn ++ toString ip ++
    (if k == 0 then "" else "." ++ String.mk (List.replicate (k - fs.length) '0') ++ fs)

/-- Python `str()` of a JSON number, as used by the generation-1 f-string
output.  Numbers are modelled as rationals: integral values render without a
decimal point and terminating decimals render exactly; a non-terminating
rational (impossible for decoded JSON) falls back to num/den notation. -/
def ratStr (q : ℚ) : String :=
  if q.den = 1 then toString q.num
  else
    match (List.range 21).find? (fun k => (10 ^ k) % q.den == 0) with
    | some k =>
        let m := (q.num * ((10 ^ k : ℕ) : ℤ)).fdiv (q.den : ℤ)
        let sgn := if m < 0 then "-" else ""
        let a := m.natAbs
        let ip := a / 10 ^ k
        let fp := a % 10 ^ k
        let fs := toString fp
        sgn ++ toString ip ++ "." ++ String.mk (List.replicate (k - fs.length) '0') ++ fs
    | none => toString q.num ++ "/" ++ toString (q.den : ℤ)

/-- Command-line inputs after argparse (lines 52-62).  `choices` constraints
of argparse are reflected in the comments; `none` means the option was not
given.  `shelly_version` has the integer 2 as argparse default, so it is
`some "1"` or `some "2"` when given on the command line and `none` for the
default. -/
structure Args where
  host : String
  auth : Bool
  user : Option String
  password : Option String
  checktype : String                -- choices: info, system, meter
  shelly_version : Option String    -- choices: "1", "2"; default: the int 2
  shelly_model : Option String
  shelly_switch : Option ℤ
  ignore_restart : Bool
  expect_powerstatus : Option String -- choices: "0", "1", "off", "on"
deriving Repr, DecidableEq

/-- Effective configuration after the input-handling block (lines 64-94). -/
structure Config where
  host : String
  auth : Bool
  user : Option String
  password : Option String
  checktype : String
  gen1 : Bool
  shelly_model : String
  shelly_switch : ℤ
  ignore_restart : Bool
  expect_powerstatus : Option Bool
deriving Repr, DecidableEq

/-- One printed line plus the process exit code: the observable outcome of a
check run. -/
structure Outcome where
  exit : ℕ
  line : String
deriving Repr, DecidableEq

/-- Line 122-124: `print("%s %s" % (output, perfdata)); sys.exit(exit_status)`.
Note the separating space is printed even when perfdata is empty. -/
def systemexit (exit_status : ℕ) (output perfdata : String) : Outcome :=
  ⟨exit_status, output ++ " " ++ perfdata⟩

/-- Python truthiness of an optional string (`if (args.x):`): `None` and the
empty string are falsy. -/
def pyTruthyOptStr : Option String → Bool
  | none => false
  | some s => s != ""

/-- Line 79: `shelly_switch` keeps its default 0 unless the option is given
and truthy (the integer 0 is falsy in Python, which makes no difference
because the default is also 0). -/
def switchArg : Option ℤ → ℤ
  | none => 0
  | some s => if s != 0 then s else 0

/-- Lines 75-76: model name, defaulting to Pro4PM. -/
def modelArg : Option String → String
  | none => "Pro4PM"
  | some m => if m != "" then m else "Pro4PM"

/-- Lines 64-94: handle inputs.  Two early exits live here: a missing (or
empty) password with `--auth` prints a CRITICAL line and exits 2, and
`--expect-powerstatus` outside the meter check prints UNKNOWN and exits 3.
The username is overwritten with "admin" whenever authentication is
enabled (line 70).  Only `-v 1` selects generation 1 (line 96 compares
against the string "1"; the argparse default is the integer 2). -/
def handleArgs (a : Args) : Except Outcome Config :=
  let user := if a.auth then some "admin" else a.user
  if a.auth && !(pyTruthyOptStr a.password) then
    .error ⟨2, "SHELLY CRITICAL: Need to give password when authentication is enabled"⟩
  else
    let gen1 := a.shelly_version == some "1"
    let expect : Option Bool :=
      match a.expect_powerstatus with
      | some s => if s != "" then some (s == "1" || s == "on") else none
      | none => none
    match expect with
    | some e =>
        if a.checktype != "meter" then
          .error ⟨3, "SHELLY UNKNOWN: expect-powerstatus requires check type 'meter'"⟩
        else
          .ok ⟨a.host, a.auth, user, a.password, a.checktype, gen1, modelArg a.shelly_model,
               switchArg a.shelly_switch, a.ignore_restart, some e⟩
    | none =>
        .ok ⟨a.host, a.auth, user, a.password, a.checktype, gen1, modelArg a.shelly_model,
             switchArg a.shelly_switch, a.ignore_restart, none⟩

/-- HTTP method of a request issued through the `requests` library. -/
inductive Method
  | get
  | post
deriving Repr, DecidableEq

/-- Authentication scheme passed to `requests` (line 102 / line 106). -/
inductive AuthScheme
  | basic
  | digest
deriving Repr, DecidableEq

/-- Credentials attached to a request: `AuthenticationMethod(args.user,
args.password)`. -/
structure AuthCred where
  scheme : AuthScheme
  user : Option String
  password : Option String
deriving Repr, DecidableEq

/-- JSON body of a POST (the `json=postdata` keyword). -/
inductive PostBody
  | sysGetStatus                    -- {id: 1, method: Sys.GetStatus}
  | switchGetStatus (id : ℤ)        -- {id: 1, method: Switch.GetStatus, params: {id: ...}}
deriving Repr, DecidableEq

/-- One HTTP exchange the client attempts. -/
structure Request where
  method : Method
  url : String
  jsonBody : Option PostBody
  auth : Option AuthCred
deriving Repr, DecidableEq

/-- Lines 96-106: URL layout.  For generation 1 the RPC-style URL points at
the settings endpoint; for generation 2 at /rpc. -/
def apiurl (gen1 : Bool) (host : String) : String :=
  if gen1 then "http://" ++ host ++ "/settings" else "http://" ++ host ++ "/rpc"

def infourl (host : String) : String := "http://" ++ host ++ "/shelly"

def statusurl (host : String) : String := "http://" ++ host ++ "/status"

def meterurl (host : String) (sw : ℤ) : String :=
  "http://" ++ host ++ "/meter/" ++ toString sw

def relayurl (host : String) (sw : ℤ) : String :=
  "http://" ++ host ++ "/relay/" ++ toString sw

/-- Lines 102 and 106: Basic for generation 1, Digest for generation 2. -/
def AuthenticationMethod (gen1 : Bool) : AuthScheme :=
  if gen1 then .basic else .digest

/-- The request sequence each check type attempts, in program order,
assuming no transport exception interrupts it (an exception terminates the
run after the requests issued so far).  Mirrors lines 129 (info), 164-177
(system) and 222-237 (meter): every request of the system and meter checks
is a POST, and the generation-1 side requests to the meter and relay
endpoints are only issued in the authenticated branch. -/
def checkRequests (c : Config) : List Request :=
  let cred : AuthCred := ⟨AuthenticationMethod c.gen1, c.user, c.password⟩
  if c.checktype == "info" then
    [⟨.get, infourl c.host, none, none⟩]
  else if c.checktype == "system" then
    if c.auth then
      ⟨.post, apiurl c.gen1 c.host, some .sysGetStatus, some cred⟩ ::
        (if c.gen1 then [⟨.post, statusurl c.host, none, some cred⟩] else [])
    else [⟨.post, apiurl c.gen1 c.host, some .sysGetStatus, none⟩]
  else if c.checktype == "meter" then
    if c.auth then
      ⟨.post, apiurl c.gen1 c.host, some (.switchGetStatus c.shelly_switch), some cred⟩ ::
        (if c.gen1 then
          [⟨.post, meterurl c.host c.shelly_switch, none, some cred⟩,
           ⟨.post, relayurl c.host c.shelly_switch, none, some cred⟩]
         else [])
    else [⟨.post, apiurl c.gen1 c.host, some (.switchGetStatus c.shelly_switch), none⟩]
  else []

/-- Requests attempted for a command line: none at all when input handling
exits early. -/
def requestsOf (a : Args) : List Request :=
  match handleArgs a with
  | .error _ => []
  | .ok c => checkRequests c

/-- A server answer as seen through the `requests` library: an HTTP status
code and, when the body is valid JSON of the expected shape, the decoded
body. -/
structure HttpResponse (β : Type) where
  status : ℕ
  body : Option β
deriving Repr, DecidableEq

/-- Truthiness of a `requests.Response` object: `bool(response)` is
`response.ok`, which holds iff the status code is below 400. -/
def HttpResponse.truthy {β : Type} (r : HttpResponse β) : Bool :=
  r.status < 400

/-- Lines 114-120: `responsehandler`.  A 401 prints a WARNING line and exits
1; any other non-200 status prints a CRITICAL line carrying the numeric
status and exits 2; a 200 falls through (`none`).  The body is never
touched. -/
def responsehandler {β : Type} (response : HttpResponse β) : Option Outcome :=
  if response.status == 401 then
    some ⟨1, "SHELLY WARNING: unable to authenticate (Shelly requires authentication)"⟩
  else if response.status != 200 then
    some ⟨2, "SHELLY CRITICAL: Not able to communicate with Shelly device - HTTP response was "
            ++ toString response.status⟩
  else none

/-- Runtime errors of the Python evaluation itself (not monitoring
verdicts): reading a never-assigned local name, a missing JSON key, a body
that is not JSON, or calling a method on `None`. -/
inductive PyErr
  | nameError (name : String)
  | keyError (key : String)
  | jsonError
  | attrError (what : String)
deriving Repr, DecidableEq

/-- Exit code of a completed run, `none` when the run crashed. -/
def exitOf : Except PyErr Outcome → Option ℕ
  | .ok o => some o.exit
  | .error _ => none

/-- Printed line of a completed run, `none` when the run crashed. -/
def lineOf : Except PyErr Outcome → Option String
  | .ok o => some o.line
  | .error _ => none

/-- Holds when a run that completed normally exited with severity at most
WARNING; a crashed run produced no verdict at all. -/
def atMostWarning : Except PyErr Outcome → Prop
  | .ok o => o.exit ≤ 1
  | .error _ => True

/-- Body of the generation-1 settings endpoint, fields the script reads
(`device.hostname` and `time`; the latter is stored and never used). -/
structure SettingsBody where
  hostname : String
  time : String
deriving Repr, DecidableEq

/-- Fields the script reads from the generation-2 `Sys.GetStatus` result
(`src` at top level, the rest under `result`). -/
structure Gen2SysResult where
  src : String
  restart_required : Bool
  time : String
  uptime : ℤ
  ram_size : ℤ
  ram_free : ℤ
  fs_size : ℤ
  fs_free : ℤ
deriving Repr, DecidableEq

/-- Fields the script reads from the generation-1 status endpoint. -/
structure Gen1StatusBody where
  uptime : ℤ
  ram_total : ℤ
  ram_free : ℤ
  fs_size : ℤ
  fs_free : ℤ
deriving Repr, DecidableEq

/-- Fields the script reads from the generation-2 `Switch.GetStatus` result
(`src` at top level, the rest under `result`; `aenergy.total`,
`aenergy.by_minute` and `temperature.tC` are nested in the wire format and
flattened here). -/
structure Gen2SwitchResult where
  src : String
  apower : ℚ
  current : ℚ
  aenergy_total : ℚ
  aenergy_by_minute : List ℚ
  tC : ℚ
  output : Bool
deriving Repr, DecidableEq

/-- Fields the script reads from the generation-1 per-switch meter
endpoint. -/
structure Gen1MeterBody where
  power : ℚ
  total : ℚ
deriving Repr, DecidableEq

/-- Field the script reads from the generation-1 per-switch relay
endpoint. -/
structure Gen1RelayBody where
  ison : Bool
deriving Repr, DecidableEq

/-- Decoded body of the first request of the system check: the settings
document (generation 1) or the RPC reply (generation 2).  Accessing a key
of the other shape raises `KeyError`. -/
inductive SysMain
  | g1 (settings : SettingsBody)
  | g2 (res : Gen2SysResult)
deriving Repr, DecidableEq

/-- Decoded body of the first request of the meter check. -/
inductive MeterMain
  | g1 (settings : SettingsBody)
  | g2 (res : Gen2SwitchResult)
deriving Repr, DecidableEq

/-- Lines 252-259 and 283-290 (the two branches carry the same literal
mapping): numeric state to state text. -/
def state_text_of (exit_status : ℕ) : String :=
  if exit_status == 0 then "OK"
  else if exit_status == 1 then "WARNING"
  else if exit_status == 2 then "CRITICAL"
  else "UNKNOWN"

/-- Lines 207-209: the only escalation of the system check.  Starting from
the global `exit_status = 0`, generation 2 raises to 1 when a restart is
required and not ignored; generation 1 has no escalation at all. -/
def systemExitStatusGen2 (restart_required ignore_restart : Bool) : ℕ :=
  if restart_required && !ignore_restart then 1 else 0

/-- Lines 277-280: the only escalation of the meter check, present in the
generation-2 branch only.  Starting from the global `exit_status = 0`,
raise to 1 when an expected power status is set and differs from the
switch state. -/
def meterExitStatusGen2 (expect_powerstatus : Option Bool) (powerstatus : Bool) : ℕ :=
  match expect_powerstatus with
  | none => 0
  | some e => if e != powerstatus then 1 else 0

/-- Line 262: the generation-1 powerstatus performance flag,
`1 if powerstatus else 0` where `powerstatus` is the STRING "on" or "off"
(Python string truthiness). -/
def gen1PowerstatusFlag (powerstatus : String) : ℕ :=
  if powerstatus != "" then 1 else 0

/-- Line 293: the generation-2 powerstatus performance flag,
`1 if powerstatus else 0` where `powerstatus` is the boolean `output`
field. -/
def gen2PowerstatusFlag (powerstatus : Bool) : ℕ :=
  if powerstatus then 1 else 0

/-- Line 218: performance data of the system check. -/
def system_perfdata (uptime ram_used ram_size fs_used fs_size : ℤ) : String :=
  "|uptime=" ++ toString uptime ++ " memory=" ++ toString ram_used ++ "B;;;0;"
    ++ toString ram_size ++ " disk=" ++ toString fs_used ++ "B;;;0;" ++ toString fs_size

/-- Lines 211-219: select the output line from `exit_status` and terminate.
`output_critical` is never assigned anywhere in the script, so the
`exit_status > 1` branch would raise `NameError`; `output_warning` is a
local that is only assigned in the generation-2 restart branch, passed here
as an optional binding. -/
def systemVerdict (exit_status : ℕ) (output_warningVar : Option String)
    (devicename : String) (uptime ram_used ram_size fs_used fs_size : ℤ) :
    Except PyErr Outcome :=
  let perfdata := system_perfdata uptime ram_used ram_size fs_used fs_size
  if exit_status > 1 then .error (.nameError "output_critical")
  else if exit_status > 0 then
    match output_warningVar with
    | none => .error (.nameError "output_warning")
    | some output_warning => .ok (systemexit exit_status output_warning perfdata)
  else
    .ok (systemexit exit_status
      ("SHELLY OK: Device (" ++ (devicename ++ "), uptime " ++ toString uptime)) perfdata)

/-- Lines 185-219 after the responses are in hand: normalize the fields of
the proper generation and compute the verdict.  `data_statusVar` is the
`data_status` local: `none` models a never-assigned name. -/
def systemTail (c : Config) (data : SysMain) (data_statusVar : Option Gen1StatusBody) :
    Except PyErr Outcome :=
  if c.gen1 then
    match data with
    | .g2 _ => .error (.keyError "device")
    | .g1 settings =>
      let devicename := settings.hostname
      let _systemtime := settings.time
      match data_statusVar with
      | none => .error (.nameError "data_status")
      | some data_status =>
        let uptime := data_status.uptime
        let ram_size := data_status.ram_total
        let ram_free := data_status.ram_free
        let ram_used := ram_size - ram_free
        let fs_size := data_status.fs_size
        let fs_free := data_status.fs_free
        let fs_used := fs_size - fs_free
        systemVerdict 0 none devicename uptime ram_used ram_size fs_used fs_size
  else
    match data with
    | .g1 _ => .error (.keyError "src")
    | .g2 res =>
      let devicename := res.src
      let restart_required := res.restart_required
      let _systemtime := res.time
      let uptime := res.uptime
      let ram_size := res.ram_size
      let ram_free := res.ram_free
      let ram_used := ram_size - ram_free
      let fs_size := res.fs_size
      let fs_free := res.fs_free
      let fs_used := fs_size - fs_free
      let exit_status := systemExitStatusGen2 restart_required c.ignore_restart
      let output_warningVar : Option String :=
        if restart_required && !c.ignore_restart then
          some ("SHELLY WARNING: Device (" ++ (res.src ++ ") requires a restart"))
        else none
      systemVerdict exit_status output_warningVar devicename uptime ram_used ram_size
        fs_used fs_size

/-- Lines 163-219: the system check, given the transport results of the two
potential requests.  `rStatusT` is only consulted in the authenticated
generation-1 branch; in the unauthenticated branch the local `r_status` is
never assigned, so line 179 (`if r_status:`) raises `NameError`. -/
def systemCheckFlow (c : Config)
    (rT : Except String (HttpResponse SysMain))
    (rStatusT : Except String (HttpResponse Gen1StatusBody)) : Except PyErr Outcome :=
  match rT with
  | .error err => .ok (systemexit 2 ("SHELLY CRITICAL: " ++ err) "")
  | .ok r =>
    let fetched : Except String (Option (Option (HttpResponse Gen1StatusBody))) :=
      if c.auth then
        if c.gen1 then
          match rStatusT with
          | .error e => .error e
          | .ok resp => .ok (some (some resp))
        else .ok (some none)
      else .ok none
    match fetched with
    | .error err => .ok (systemexit 2 ("SHELLY CRITICAL: " ++ err) "")
    | .ok r_statusVar =>
      match responsehandler r with
      | some o => .ok o
      | none =>
        match r_statusVar with
        | none => .error (.nameError "r_status")
        | some r_status =>
          match r_status with
          | some resp =>
            if resp.truthy then
              match responsehandler resp with
              | some o => .ok o
              | none =>
                match resp.body with
                | none => .error .jsonError
                | some ds =>
                  match r.body with
                  | none => .error .jsonError
                  | some data => systemTail c data (some ds)
            else
              match r.body with
              | none => .error .jsonError
              | some data => systemTail c data none
          | none =>
            match r.body with
            | none => .error .jsonError
            | some data => systemTail c data none

/-- Lines 246-294 after the responses are in hand: normalize the fields of
the proper generation, compute the verdict line and performance data.
`data_meterVar` and `data_relayVar` are the `data_meter` and `data_relay`
locals: `none` models a never-assigned name, read on lines 248/250 in the
generation-1 branch.  The generation-1 branch never consults
`expect_powerstatus`. -/
def meterTail (c : Config) (data : MeterMain)
    (data_meterVar : Option Gen1MeterBody) (data_relayVar : Option Gen1RelayBody) :
    Except PyErr Outcome :=
  if c.gen1 then
    match data with
    | .g2 _ => .error (.keyError "device")
    | .g1 settings =>
      let devicename := settings.hostname
      match data_meterVar with
      | none => .error (.nameError "data_meter")
      | some data_meter =>
        let apower := data_meter.power
        let aenergy_total := data_meter.total
        match data_relayVar with
        | none => .error (.nameError "data_relay")
        | some data_relay =>
          let powerstatus := if data_relay.ison then "on" else "off"
          let exit_status : ℕ := 0
          let state_text := state_text_of exit_status
          let output := "SHELLY " ++ state_text ++ ": Device ("
            ++ (devicename ++ (") SWITCH_" ++ toString c.shelly_switch ++ " is "
                ++ powerstatus ++ ", currently using " ++ ratStr apower ++ " Watt"))
          let perfdata := "|power=" ++ toString (pyInt apower) ++ " total_power="
            ++ fmtFixed aenergy_total 3 ++ " powerstatus="
            ++ toString (gen1PowerstatusFlag powerstatus)
          .ok (systemexit exit_status output perfdata)
  else
    match data with
    | .g1 _ => .error (.keyError "src")
    | .g2 res =>
      let devicename := res.src
      let apower := res.apower
      let current := res.current
      let aenergy_total := res.aenergy_total
      let _aenergy_by_minute := res.aenergy_by_minute
      let temp_celsius := res.tC
      let powerstatus := res.output
      let exit_status := meterExitStatusGen2 c.expect_powerstatus powerstatus
      let state_text := state_text_of exit_status
      let output := "SHELLY " ++ state_text ++ ": Device ("
        ++ (devicename ++ (") SWITCH_" ++ toString c.shelly_switch ++ " is "
            ++ (if powerstatus then "on" else "off") ++ ", currently using "
            ++ toString (pyInt apower) ++ " Watt / " ++ toString (pyInt current) ++ " Amp"))
      let perfdata := "|power=" ++ toString (pyInt apower) ++ " current="
        ++ toString (pyInt current) ++ " total_power=" ++ fmtFixed aenergy_total 3
        ++ " temp=" ++ fmtFixed temp_celsius 1 ++ " powerstatus="
        ++ toString (gen2PowerstatusFlag powerstatus)
      .ok (systemexit exit_status output perfdata)

/-- Lines 221-294: the meter check, given the transport results of the three
potential requests.  The side requests to the meter and relay endpoints are
only issued when authentication is enabled AND the device is generation 1
(lines 225-230); otherwise the locals `r_meter`/`r_relay` keep their `None`
default from lines 223-224, the `if r_meter:` block is skipped, and
`data_meter`/`data_relay` are never assigned. -/
def meterCheckFlow (c : Config)
    (rT : Except String (HttpResponse MeterMain))
    (rMeterT : Except String (HttpResponse Gen1MeterBody))
    (rRelayT : Except String (HttpResponse Gen1RelayBody)) : Except PyErr Outcome :=
  match rT with
  | .error err => .ok (systemexit 2 ("SHELLY CRITICAL: " ++ err) "")
  | .ok r =>
    let fetched : Except String
        (Option (HttpResponse Gen1MeterBody) × Option (HttpResponse Gen1RelayBody)) :=
      if c.auth && c.gen1 then
        match rMeterT with
        | .error e => .error e
        | .ok m =>
          match rRelayT with
          | .error e => .error e
          | .ok rl => .ok (some m, some rl)
      else .ok (none, none)
    match fetched with
    | .error err => .ok (systemexit 2 ("SHELLY CRITICAL: " ++ err) "")
    | .ok (r_meter, r_relay) =>
      match responsehandler r with
      | some o => .ok o
      | none =>
        match r_meter with
        | some mresp =>
          if mresp.truthy then
            match responsehandler mresp with
            | some o => .ok o
            | none =>
              match r_relay with
              | none => .error (.attrError "NoneType")
              | some rresp =>
                match responsehandler rresp with
                | some o => .ok o
                | none =>
                  match mresp.body with
                  | none => .error .jsonError
                  | some dm =>
                    match rresp.body with
                    | none => .error .jsonError
                    | some dr =>
                      match r.body with
                      | none => .error .jsonError
                      | some data => meterTail c data (some dm) (some dr)
          else
            match r.body with
            | none => .error .jsonError
            | some data => meterTail c data none none
        | none =>
          match r.body with
          | none => .error .jsonError
          | some data => meterTail c data none none

/-! ### Helper lemmas -/

theorem string_append_assoc (a b c : String) : a ++ b ++ c = a ++ (b ++ c) := by
  cases a; cases b; cases c
  show String.append (String.append _ _) _ = String.append _ (String.append _ _)
  simp [String.append, List.append_assoc]

theorem switchArg_some (s : ℤ) : switchArg (some s) = s := by
  unfold switchArg
  by_cases h : s = 0
  · simp [h]
  · simp [bne_iff_ne, h]

theorem meterExitStatusGen2_le (e : Option Bool) (p : Bool) : meterExitStatusGen2 e p ≤ 1 := by
  cases e with
  | none => exact Nat.zero_le 1
  | some b => cases b <;> cases p <;> simp [meterExitStatusGen2]

theorem systemExitStatusGen2_le (r i : Bool) : systemExitStatusGen2 r i ≤ 1 := by
  cases r <;> cases i <;> simp [systemExitStatusGen2]

theorem systemVerdict_atMostWarning (e : ℕ) (w : Option String) (dn : String)
    (up ru rs fu fs : ℤ) (he : e ≤ 1) :
    atMostWarning (systemVerdict e w dn up ru rs fu fs) := by
  unfold systemVerdict
  by_cases h1 : e > 1
  · exact absurd h1 (by omega)
  · rw [if_neg h1]
    by_cases h0 : e > 0
    · rw [if_pos h0]
      cases w
      · trivial
      · exact he
    · rw [if_neg h0]
      exact he

theorem systemTail_atMostWarning (c : Config) (d : SysMain)
    (ds : Option Gen1StatusBody) : atMostWarning (systemTail c d ds) := by
  unfold systemTail
  cases hg : c.gen1 <;> simp only [Bool.false_eq_true, if_false, if_true]
  · cases d with
    | g1 _ => trivial
    | g2 res =>
        exact systemVerdict_atMostWarning _ _ _ _ _ _ _ _
          (systemExitStatusGen2_le res.restart_required c.ignore_restart)
  · cases d with
    | g1 s =>
        cases ds
        · trivial
        · exact systemVerdict_atMostWarning _ _ _ _ _ _ _ _ (by omega)
    | g2 _ => trivial

theorem meterTail_atMostWarning (c : Config) (d : MeterMain)
    (dm : Option Gen1MeterBody) (dr : Option Gen1RelayBody) :
    atMostWarning (meterTail c d dm dr) := by
  unfold meterTail
  cases hg : c.gen1 <;> simp only [Bool.false_eq_true, if_false, if_true]
  · cases d with
    | g1 _ => trivial
    | g2 res => exact meterExitStatusGen2_le c.expect_powerstatus res.output
  · cases d with
    | g1 s =>
        cases dm
        · trivial
        · cases dr
          · trivial
          · exact Nat.zero_le 1
    | g2 _ => trivial

theorem string_append_split (A nm R M P : String) (h : R = ") " ++ M) :
    ((A ++ (nm ++ R)) ++ " ") ++ P = ((A ++ (nm ++ ") ")) ++ M) ++ (" " ++ P) := by
  subst h
  simp only [string_append_assoc]

/-! ### Claims -/

/-- C1: the claim says every meter check of either generation warns (exit 1)
when the expected power status disagrees with the switch state and stays OK
when it agrees.  The generation-2 branch does exactly that, but the
generation-1 branch never consults the expectation: a run with
`--expect-powerstatus on` against a relay that reports `ison=false` still
exits 0.  First conjunct: the generation-2 escalation as claimed; second
conjunct: the generation-1 run at the failing input completes with exit
code 0 despite the mismatch. -/
theorem C1_meter_expected_power_gen1_ignored :
    (∀ e p : Bool, meterExitStatusGen2 (some e) p = if e != p then 1 else 0)
    ∧ exitOf (meterCheckFlow
        ⟨"192.0.2.1", true, some "admin", some "pw", "meter", true,
          "Pro4PM", 0, false, some true⟩
        (.ok ⟨200, some (.g1 ⟨"myshelly", "16:40"⟩)⟩)
        (.ok ⟨200, some ⟨5, 1⟩⟩) (.ok ⟨200, some ⟨false⟩⟩)) = some 0 :=
  ⟨fun _ _ => rfl, by decide⟩

/-- C2: the claim says the meter performance data always carries a
powerstatus flag equal to 1 when the switch is on and 0 when it is off.
Generation 2 satisfies this, but the generation-1 flag is computed from the
truthiness of the STRING "on"/"off", both of which are non-empty, so the
flag is constantly 1.  The final conjunct evaluates a generation-1 run with
the relay off: the line reports the switch as off yet ends in
powerstatus=1. -/
theorem C2_gen1_powerstatus_flag_always_one :
    (∀ s : Bool, gen1PowerstatusFlag (if s then "on" else "off") = 1)
    ∧ (∀ b : Bool, gen2PowerstatusFlag b = if b then 1 else 0)
    ∧ lineOf (meterCheckFlow
        ⟨"192.0.2.1", true, some "admin", some "pw", "meter", true,
          "Pro4PM", 0, false, none⟩
        (.ok ⟨200, some (.g1 ⟨"myshelly", "16:40"⟩)⟩)
        (.ok ⟨200, some ⟨5, 1⟩⟩) (.ok ⟨200, some ⟨false⟩⟩))
      = some "SHELLY OK: Device (myshelly) SWITCH_0 is off, currently using 5 Watt |power=5 total_power=1.000 powerstatus=1" :=
  ⟨fun s => by cases s <;> rfl, fun _ => rfl, by decide⟩

/-- C3: the claim says generation-1 system and meter checks without
authentication complete normally when every HTTP exchange succeeds.  They
do not: the unauthenticated branch never assigns `r_status` (system) nor
`data_meter` (meter), so even with an all-200 exchange the run raises
`NameError` and crashes instead of emitting a report. -/
theorem C3_gen1_unauthenticated_checks_raise_nameerror :
    ∀ (s : SettingsBody) (stT : Except String (HttpResponse Gen1StatusBody))
      (mT : Except String (HttpResponse Gen1MeterBody))
      (rlT : Except String (HttpResponse Gen1RelayBody)),
    systemCheckFlow ⟨"192.0.2.1", false, none, none, "system", true, "Pro4PM", 0, false, none⟩
        (.ok ⟨200, some (.g1 s)⟩) stT = .error (.nameError "r_status")
    ∧ meterCheckFlow ⟨"192.0.2.1", false, none, none, "meter", true, "Pro4PM", 0, false, none⟩
        (.ok ⟨200, some (.g1 s)⟩) mT rlT = .error (.nameError "data_meter") :=
  fun _ _ _ _ => ⟨rfl, rfl⟩

/-- C4 counterexample: the claim says a missing password with `--auth`
exits with code 3 (UNKNOWN); the program prints a CRITICAL line and exits
with code 2 at this concrete input. -/
theorem C4_counterexample_password_missing_is_exit_two :
    handleArgs ⟨"192.0.2.1", true, some "alice", none, "system", none, none, none, false, none⟩
      = .error ⟨2, "SHELLY CRITICAL: Need to give password when authentication is enabled"⟩
    ∧ (2 : ℕ) ≠ 3 :=
  ⟨rfl, by decide⟩

/-- C5: for every generation-2 system response carrying
`restart_required=true` and any uptime / memory / disk values, running the
system check (authenticated, so the response reaches the verdict) with
ignore-restart unset yields WARNING (exit 1) with the restart message,
and with ignore-restart set yields OK (exit 0). -/
theorem C5_gen2_restart_required_warns_unless_ignored :
    ∀ (c : Config) (src tm : String) (up rs rf fs ff : ℤ)
      (stT : Except String (HttpResponse Gen1StatusBody)),
    systemCheckFlow {c with gen1 := false, auth := true, ignore_restart := false}
        (.ok ⟨200, some (.g2 ⟨src, true, tm, up, rs, rf, fs, ff⟩)⟩) stT
      = .ok ⟨1, ("SHELLY WARNING: Device (" ++ (src ++ ") requires a restart")) ++ " "
                ++ system_perfdata up (rs - rf) rs (fs - ff) fs⟩
    ∧ systemCheckFlow {c with gen1 := false, auth := true, ignore_restart := true}
        (.ok ⟨200, some (.g2 ⟨src, true, tm, up, rs, rf, fs, ff⟩)⟩) stT
      = .ok ⟨0, ("SHELLY OK: Device (" ++ (src ++ "), uptime " ++ toString up)) ++ " "
                ++ system_perfdata up (rs - rf) rs (fs - ff) fs⟩ :=
  fun _ _ _ _ _ _ _ _ _ => ⟨rfl, rfl⟩

/-- C6: the claim says every HTTP response is validated before parsing,
with a 401 terminating at exit 1 (authentication warning) and any other
non-200 at exit 2 carrying the status code.  This holds for the first
response of a check (first conjunct: a 401 there terminates with the
warning whatever the body holds, even one that is not JSON, so nothing is
parsed).  It fails for the generation-1 authenticated side responses: a
`requests` response object is falsy whenever its status is 400 or above,
so `if r_status:` (line 179) and `if r_meter:` (line 239) skip
`responsehandler` for a 401 or 500 side response; `data_status` /
`data_meter` stay unassigned and the run crashes with `NameError` and no
report line instead of exiting 1 or 2 (conjuncts two, three and five).
Only a truthy non-200 side status such as a 302 redirect reaches
`responsehandler` and terminates with exit 2 as the claim describes
(fourth conjunct). -/
theorem C6_gen1_side_responses_skip_validation :
    ∀ (b : Option SysMain) (s : SettingsBody) (stb : Gen1StatusBody)
      (mb : Gen1MeterBody) (rb : Gen1RelayBody),
    systemCheckFlow ⟨"192.0.2.1", true, some "admin", some "pw", "system", true,
        "Pro4PM", 0, false, none⟩ (.ok ⟨401, b⟩) (.ok ⟨200, some stb⟩)
      = .ok ⟨1, "SHELLY WARNING: unable to authenticate (Shelly requires authentication)"⟩
    ∧ systemCheckFlow ⟨"192.0.2.1", true, some "admin", some "pw", "system", true,
        "Pro4PM", 0, false, none⟩ (.ok ⟨200, some (.g1 s)⟩) (.ok ⟨401, some stb⟩)
      = .error (.nameError "data_status")
    ∧ systemCheckFlow ⟨"192.0.2.1", true, some "admin", some "pw", "system", true,
        "Pro4PM", 0, false, none⟩ (.ok ⟨200, some (.g1 s)⟩) (.ok ⟨500, some stb⟩)
      = .error (.nameError "data_status")
    ∧ systemCheckFlow ⟨"192.0.2.1", true, some "admin", some "pw", "system", true,
        "Pro4PM", 0, false, none⟩ (.ok ⟨200, some (.g1 s)⟩) (.ok ⟨302, some stb⟩)
      = .ok ⟨2, "SHELLY CRITICAL: Not able to communicate with Shelly device - HTTP response was "
          ++ toString 302⟩
    ∧ meterCheckFlow ⟨"192.0.2.1", true, some "admin", some "pw", "meter", true,
        "Pro4PM", 0, false, none⟩ (.ok ⟨200, some (.g1 s)⟩)
        (.ok ⟨401, some mb⟩) (.ok ⟨200, some rb⟩)
      = .error (.nameError "data_meter") :=
  fun _ _ _ _ _ => ⟨rfl, rfl, rfl, rfl, rfl⟩

/-- C7: the verdict logic of the system and meter checks only ever
escalates to WARNING.  The two escalation computations are bounded by 1,
and any run whose responses all arrive with status 200 (the inputs that
reach the verdict stage) either crashes without a verdict or exits with
severity at most WARNING, for every configuration and every normalized
response of either generation. -/
theorem C7_escalation_never_reaches_critical :
    (∀ (e : Option Bool) (p : Bool), meterExitStatusGen2 e p ≤ 1)
    ∧ (∀ r i : Bool, systemExitStatusGen2 r i ≤ 1)
    ∧ (∀ (c : Config) (d : SysMain) (stb : Gen1StatusBody),
        atMostWarning (systemCheckFlow c (.ok ⟨200, some d⟩) (.ok ⟨200, some stb⟩)))
    ∧ (∀ (c : Config) (d : MeterMain) (mb : Gen1MeterBody) (rb : Gen1RelayBody),
        atMostWarning (meterCheckFlow c (.ok ⟨200, some d⟩)
          (.ok ⟨200, some mb⟩) (.ok ⟨200, some rb⟩))) := by
  refine ⟨meterExitStatusGen2_le, systemExitStatusGen2_le, ?_, ?_⟩
  · intro c d stb
    cases ha : c.auth <;> cases hg : c.gen1 <;>
      simp only [systemCheckFlow, ha, hg, Bool.false_eq_true, if_false, if_true] <;>
      first
        | trivial
        | exact systemTail_atMostWarning c d (some stb)
        | exact systemTail_atMostWarning c d none
  · intro c d mb rb
    cases ha : c.auth <;> cases hg : c.gen1 <;>
      simp only [meterCheckFlow, ha, hg, Bool.false_and, Bool.true_and,
        Bool.and_false, Bool.and_true, Bool.false_eq_true, if_false, if_true] <;>
      first
        | trivial
        | exact meterTail_atMostWarning c d (some mb) (some rb)
        | exact meterTail_atMostWarning c d none none

/-- C8: a generation-2 meter check on switch 0 against a device reporting
apower=42, current=0.5, output=true with no expected power status exits 0
(OK) and its report line contains the text
"SWITCH_0 is on, currently using 42 Watt / 0 Amp" (0.5 Amperes print as 0
because the %i conversion truncates), whether or not authentication is
enabled. -/
theorem C8_gen2_meter_switch0_scenario :
    (∀ auth : Bool,
      exitOf (meterCheckFlow
          ⟨"192.0.2.1", auth, some "admin", some "pw", "meter", false, "Pro4PM", 0, false, none⟩
          (.ok ⟨200, some (.g2 ⟨"shellypro4pm-8240", 42, mkRat 1 2, 100, [], 30, true⟩)⟩)
          (.ok ⟨200, some ⟨5, 1⟩⟩) (.ok ⟨200, some ⟨false⟩⟩)) = some 0)
    ∧ ∃ pre tail, ∀ auth : Bool,
        lineOf (meterCheckFlow
          ⟨"192.0.2.1", auth, some "admin", some "pw", "meter", false, "Pro4PM", 0, false, none⟩
          (.ok ⟨200, some (.g2 ⟨"shellypro4pm-8240", 42, mkRat 1 2, 100, [], 30, true⟩)⟩)
          (.ok ⟨200, some ⟨5, 1⟩⟩) (.ok ⟨200, some ⟨false⟩⟩))
        = some ((pre ++ "SWITCH_0 is on, currently using 42 Watt / 0 Amp") ++ tail) := by
  constructor
  · intro auth
    cases auth <;> decide
  · refine ⟨"SHELLY OK: Device (shellypro4pm-8240) ",
      " |power=42 current=0 total_power=100.000 temp=30.0 powerstatus=1", ?_⟩
    intro auth
    cases auth <;> decide

/-- C4 amended: if authentication is requested but no password (or an empty
one) is supplied, the program reports the configuration error and exits
with code 2 (CRITICAL) immediately, before any HTTP request is
attempted. -/
theorem C4_password_missing_exits_critical_before_requests :
    ∀ a : Args,
      handleArgs {a with auth := true, password := none}
        = .error ⟨2, "SHELLY CRITICAL: Need to give password when authentication is enabled"⟩
      ∧ handleArgs {a with auth := true, password := some ""}
        = .error ⟨2, "SHELLY CRITICAL: Need to give password when authentication is enabled"⟩
      ∧ requestsOf {a with auth := true, password := none} = []
      ∧ requestsOf {a with auth := true, password := some ""} = [] :=
  fun _ => ⟨rfl, rfl, rfl, rfl⟩

/-- C9 counterexample: the claim says the generation-1 meter check issues a
GET to the per-switch meter endpoint and a GET to the relay endpoint, and
issues all three requests with or without authentication.  At a concrete
authenticated generation-1 meter invocation the request trace contains no
GET at all (every request is a POST), and at the same invocation without
authentication only one request is issued, not three. -/
theorem C9_counterexample_gen1_meter_posts_only :
    ((requestsOf ⟨"192.0.2.1", true, some "alice", some "pw", "meter", some "1", none,
        some 0, false, none⟩).any (fun r => r.method == Method.get)) = false
    ∧ (requestsOf ⟨"192.0.2.1", true, some "alice", some "pw", "meter", some "1", none,
        some 0, false, none⟩).length = 3
    ∧ (requestsOf ⟨"192.0.2.1", false, some "alice", none, "meter", some "1", none,
        some 0, false, none⟩).length = 1 := by
  refine ⟨by decide, by decide, by decide⟩

/-- C9 amended: a generation-1 meter check with authentication enabled
issues three POST requests: the RPC-shaped settings POST plus a POST to
the per-switch meter endpoint and a POST to the per-switch relay endpoint,
all three with HTTP Basic credentials (username admin); with
authentication disabled only the settings POST is issued. -/
theorem C9_gen1_meter_requests_amended :
    ∀ (host : String) (sw : ℤ) (u : Option String),
      requestsOf ⟨host, true, u, some "pw", "meter", some "1", none, some sw, false, none⟩
        = [⟨.post, apiurl true host, some (.switchGetStatus sw),
              some ⟨.basic, some "admin", some "pw"⟩⟩,
           ⟨.post, meterurl host sw, none, some ⟨.basic, some "admin", some "pw"⟩⟩,
           ⟨.post, relayurl host sw, none, some ⟨.basic, some "admin", some "pw"⟩⟩]
      ∧ requestsOf ⟨host, false, u, none, "meter", some "1", none, some sw, false, none⟩
        = [⟨.post, apiurl true host, some (.switchGetStatus sw), none⟩] := by
  intro host sw u
  constructor
  · rw [show requestsOf ⟨host, true, u, some "pw", "meter", some "1", none, some sw, false, none⟩
        = [⟨.post, apiurl true host, some (.switchGetStatus (switchArg (some sw))),
              some ⟨.basic, some "admin", some "pw"⟩⟩,
           ⟨.post, meterurl host (switchArg (some sw)), none,
              some ⟨.basic, some "admin", some "pw"⟩⟩,
           ⟨.post, relayurl host (switchArg (some sw)), none,
              some ⟨.basic, some "admin", some "pw"⟩⟩] from rfl,
      switchArg_some]
  · rw [show requestsOf ⟨host, false, u, none, "meter", some "1", none, some sw, false, none⟩
        = [⟨.post, apiurl true host, some (.switchGetStatus (switchArg (some sw))), none⟩]
        from rfl,
      switchArg_some]

/-- C10: the username given with the user option has no effect: the request
trace is identical for any two values of the option (first conjunct), every
credentialled request carries the fixed username admin whenever
authentication is enabled (second conjunct), and the response-processing
flows never read the username at all, so the printed line and exit code
are identical for any two values (last two conjuncts). -/
theorem C10_user_option_has_no_effect :
    (∀ (a : Args) (u1 u2 : Option String),
        requestsOf {a with user := u1} = requestsOf {a with user := u2})
    ∧ (∀ a : Args,
        ((requestsOf {a with auth := true}).all
          (fun r => match r.auth with
            | none => true
            | some cred => cred.user == some "admin")) = true)
    ∧ (∀ (c : Config) (u1 u2 : Option String)
        (rT : Except String (HttpResponse MeterMain))
        (mT : Except String (HttpResponse Gen1MeterBody))
        (rlT : Except String (HttpResponse Gen1RelayBody)),
        meterCheckFlow {c with user := u1} rT mT rlT
          = meterCheckFlow {c with user := u2} rT mT rlT)
    ∧ (∀ (c : Config) (u1 u2 : Option String)
        (rT : Except String (HttpResponse SysMain))
        (stT : Except String (HttpResponse Gen1StatusBody)),
        systemCheckFlow {c with user := u1} rT stT
          = systemCheckFlow {c with user := u2} rT stT) := by
  refine ⟨?_, ?_, ?_, ?_⟩
  · intro a u1 u2
    obtain ⟨h, au, u, pw, ct, sv, sm, ssw, ig, ex⟩ := a
    cases au
    · rcases ex with _ | s
      · rfl
      · simp only [requestsOf, handleArgs, Bool.false_and, Bool.false_eq_true, if_false]
        by_cases hs : (s != "") = true
        · simp only [hs, if_true]
          by_cases hct : (ct != "meter") = true
          · simp only [hct, if_true]
          · simp only [hct, if_false]
            rfl
        · simp only [hs, Bool.false_eq_true, if_false]
          rfl
    · rfl
  · intro a
    obtain ⟨h, au, u, pw, ct, sv, sm, ssw, ig, ex⟩ := a
    simp only [requestsOf, handleArgs, checkRequests, Bool.true_and]
    by_cases hpw : pyTruthyOptStr pw = true
    · simp only [hpw, Bool.not_true, Bool.false_eq_true, if_false]
      rcases ex with _ | s
      · simp only []
        by_cases h1 : (ct == "info") = true
        · simp only [h1, if_true]
          rfl
        · simp only [h1, Bool.false_eq_true, if_false]
          by_cases h2 : (ct == "system") = true
          · simp only [h2, if_true]
            by_cases hg : ((sv == some "1") : Bool) = true
            · simp only [hg, if_true]
              rfl
            · simp only [hg, Bool.false_eq_true, if_false]
              rfl
          · simp only [h2, Bool.false_eq_true, if_false]
            by_cases h3 : (ct == "meter") = true
            · simp only [h3, if_true]
              by_cases hg : ((sv == some "1") : Bool) = true
              · simp only [hg, if_true]
                rfl
              · simp only [hg, Bool.false_eq_true, if_false]
                rfl
            · simp only [h3, Bool.false_eq_true, if_false]
              rfl
      · by_cases hs : (s != "") = true
        · simp only [hs, if_true]
          by_cases hct : (ct != "meter") = true
          · simp only [hct, if_true]
            rfl
          · simp only [hct, Bool.false_eq_true, if_false]
            by_cases h1 : (ct == "info") = true
            · simp only [h1, if_true]
              rfl
            · simp only [h1, Bool.false_eq_true, if_false]
              by_cases h2 : (ct == "system") = true
              · simp only [h2, if_true]
                by_cases hg : ((sv == some "1") : Bool) = true
                · simp only [hg, if_true]
                  rfl
                · simp only [hg, Bool.false_eq_true, if_false]
                  rfl
              · simp only [h2, Bool.false_eq_true, if_false]
                by_cases h3 : (ct == "meter") = true
                · simp only [h3, if_true]
                  by_cases hg : ((sv == some "1") : Bool) = true
                  · simp only [hg, if_true]
                    rfl
                  · simp only [hg, Bool.false_eq_true, if_false]
                    rfl
                · simp only [h3, Bool.false_eq_true, if_false]
                  rfl
        · simp only [hs, Bool.false_eq_true, if_false]
          by_cases h1 : (ct == "info") = true
          · simp only [h1, if_true]
            rfl
          · simp only [h1, Bool.false_eq_true, if_false]
            by_cases h2 : (ct == "system") = true
            · simp only [h2, if_true]
              by_cases hg : ((sv == some "1") : Bool) = true
              · simp only [hg, if_true]
                rfl
              · simp only [hg, Bool.false_eq_true, if_false]
                rfl
            · simp only [h2, Bool.false_eq_true, if_false]
              by_cases h3 : (ct == "meter") = true
              · simp only [h3, if_true]
                by_cases hg : ((sv == some "1") : Bool) = true
                · simp only [hg, if_true]
                  rfl
                · simp only [hg, Bool.false_eq_true, if_false]
                  rfl
              · simp only [h3, Bool.false_eq_true, if_false]
                rfl
    · have hpw2 : pyTruthyOptStr pw = false := by
        cases hh : pyTruthyOptStr pw
        · rfl
        · exact absurd hh hpw
      simp only [hpw2]
      rfl
  · intro c u1 u2 rT mT rlT
    obtain ⟨h, a, u, pw, ct, g, sm, sw, ig, ex⟩ := c
    rfl
  · intro c u1 u2 rT stT
    obtain ⟨h, a, u, pw, ct, g, sm, sw, ig, ex⟩ := c
    rfl

end CheckShelly
